import Mathlib

/-!
Shallow embedding of `get_ndas2.py`, a script that mirrors dated `cdas2.YYYYMMDD`
directories from an FTP server into a local month-partitioned archive.

The embedding follows the source line by line:

* `getDirDate` embeds the function of the same name (lines 9-27): a full regex
  match against `cdas2.` + 8 digits followed by `strptime`, which raises a
  `ValueError` for digit groups that are not a valid calendar date.
* `syncDecision` and `getFile` embed `getFile` (lines 29-91).  Note that the
  warning printed when remote metadata retrieval fails uses the replacement
  field index 1 with a single positional argument, which raises an
  `IndexError`; and that the computed `doDownload` flag is never consulted
  before the unconditional `retrbinary` call.
* The walker (`walkDirs`, `mainRun`) embeds `main` (lines 93-196), with the
  external world (FTP listings, directory-change outcomes, local filesystem)
  supplied as oracles.  Two further broken replacement fields live in `main`:
  the skip warning for a non-matching directory name (index 1, one argument)
  and the mkdir-failure warning (index 4, four arguments); both raise an
  `IndexError` when reached.

Python exceptions that escape are modelled with `Except PyErr`.
-/

deriving instance DecidableEq for Except

/-- Uncaught Python exception kinds that the script can raise. -/
inductive PyErr where
  | valueError
  | indexError
deriving DecidableEq, Repr

/-- A calendar date as produced by `datetime.datetime.strptime` (year, month,
day; the time-of-day part is always midnight and is dropped). -/
structure Date where
  year : Nat
  month : Nat
  day : Nat
deriving DecidableEq, Repr

/-- Gregorian leap-year rule, as used by Python `datetime`. -/
def isLeapYear (y : Nat) : Bool :=
  y % 4 == 0 && (y % 100 != 0 || y % 400 == 0)

/-- Number of days in a month of a given year (Python `datetime` calendar). -/
def daysInMonth (y m : Nat) : Nat :=
  if m = 2 then (if isLeapYear y then 29 else 28)
  else if m = 4 ∨ m = 6 ∨ m = 9 ∨ m = 11 then 30
  else 31

/-- Validity of (year, month, day) for the Python `datetime` constructor:
`MINYEAR = 1`, `MAXYEAR = 9999` (and 4 format digits bound the year anyway). -/
def dateValid (d : Date) : Bool :=
  1 ≤ d.year && d.year ≤ 9999 && 1 ≤ d.month && d.month ≤ 12
    && 1 ≤ d.day && d.day ≤ daysInMonth d.year d.month

/-- Value of a list of ASCII digit characters read in base 10. -/
def natOfDigits (cs : List Char) : Nat :=
  cs.foldl (fun a c => 10 * a + (c.toNat - 48)) 0

/-- The regex `re.fullmatch` against the pattern `cdas2\.\d{8}` from line 25:
the string is exactly `cdas2.` followed by exactly 8 ASCII digits. -/
def cdas2Pattern (s : String) : Bool :=
  s.data.take 6 == "cdas2.".data
    && s.data.length == 14
    && (s.data.drop 6).all Char.isDigit

/-- The (year, month, day) fields read by `strptime` with format `cdas2.%Y%m%d`:
4 digits of year, then 2 of month, then 2 of day, after the 6-character
prefix. -/
def extractDate (s : String) : Date :=
  let ds := s.data.drop 6
  ⟨natOfDigits (ds.take 4), natOfDigits ((ds.drop 4).take 2), natOfDigits (ds.drop 6)⟩

/-- Embedding of `getDirDate` (lines 9-27).  A non-matching name returns
`None`.  A matching name is handed to `strptime`, which returns the encoded
date or raises `ValueError` when the digits are not a valid calendar date. -/
def getDirDate (s : String) : Except PyErr (Option Date) :=
  if cdas2Pattern s then
    let d := extractDate s
    if dateValid d then .ok (some d) else .error .valueError
  else .ok none

/-- ASCII digit character for a value below 10. -/
def digitChar (n : Nat) : Char := Char.ofNat (48 + n)

/-- Two-digit zero-padded decimal rendering (strftime `%m`, `%d`). -/
def pad2 (n : Nat) : String :=
  String.mk [digitChar (n / 10 % 10), digitChar (n % 10)]

/-- Four-digit zero-padded decimal rendering (strftime `%Y`). -/
def pad4 (n : Nat) : String :=
  String.mk [digitChar (n / 1000 % 10), digitChar (n / 100 % 10),
             digitChar (n / 10 % 10), digitChar (n % 10)]

/-- Lowercased C-locale month abbreviation: `strftime` with `%b`, then `lower()`. -/
def monthAbbrevLower (m : Nat) : String :=
  match m with
  | 1 => "jan" | 2 => "feb" | 3 => "mar" | 4 => "apr"
  | 5 => "may" | 6 => "jun" | 7 => "jul" | 8 => "aug"
  | 9 => "sep" | 10 => "oct" | 11 => "nov" | 12 => "dec"
  | _ => ""

/-- Embedding of line 153: `dirDate.strftime` with `%Y%b`, lowercased, the name of the
per-month local output subdirectory. -/
def deriveOutputSubdirectory (d : Date) : String :=
  pad4 d.year ++ monthAbbrevLower d.month

/-- Embedding of `dirDate.strftime` with `%Y%m%d` (line 190). -/
def strfDate8 (d : Date) : String :=
  pad4 d.year ++ pad2 d.month ++ pad2 d.day

/-- Python slice `s[7:9]` on a string: characters at indices 7 and 8, fewer
when the string is shorter (slicing never raises). -/
def pySlice79 (s : String) : String :=
  String.mk ((s.data.drop 7).take 2)

/-- Embedding of line 190: `"sig.anl.{0}{1}.ieee".format(date8, inFile[7:9])`. -/
def outFileName (d : Date) (inFile : String) : String :=
  "sig.anl." ++ strfDate8 d ++ pySlice79 inFile ++ ".ieee"

/-- Outcome of the unconditional download block of `getFile` (lines 83-90). -/
inductive DownloadStep where
  /-- the binary-write `open` of the target raised an `OSError`; nothing written. -/
  | openFail
  /-- `retrbinary` succeeded and the target now holds `content`. -/
  | transferOk (content : List Nat)
  /-- `retrbinary` raised an FTP error after the target was truncated; the
  target holds whatever portion was written before the failure. -/
  | transferFail (written : List Nat)
deriving DecidableEq, Repr

/-- External-world inputs of one `getFile` call: the prior bytes of the target
file (`none` when the file is absent), the outcome of the local metadata
syscalls, the outcome of the remote `SIZE`/`MDTM` queries, and the outcome of
the download block. -/
structure FileWorld where
  target : Option (List Nat)
  localMeta : Option (Int × Int)
  remoteMeta : Option (Int × Int)
  step : DownloadStep
deriving DecidableEq, Repr

/-- Observable results of one `getFile` call: the returned Boolean, the final
value of the `doDownload` flag, whether the download block was entered, and
the final bytes of the target file. -/
structure GetFileOut where
  ret : Bool
  doDownload : Bool
  downloadAttempted : Bool
  file : Option (List Nat)
deriving DecidableEq, Repr

/-- The `doDownload` computation of `getFile` (lines 52-81).  When the target
exists, its metadata is readable and the remote metadata queries fail, the
handler at lines 70-71 formats replacement field 1 with one positional argument and
raises an `IndexError`, which is uncaught. -/
def syncDecision (targetExists : Bool) (localMeta remoteMeta : Option (Int × Int)) :
    Except PyErr Bool :=
  if targetExists then
    match localMeta with
    | none => .ok true
    | some (tsize, tctime) =>
      match remoteMeta with
      | none => .error .indexError
      | some (ssize, sctime) =>
        if ssize = tsize ∧ sctime < tctime then .ok false else .ok true
  else .ok true

/-- Embedding of `getFile` (lines 29-91).  After the decision block, the
download at line 84 is executed unconditionally: the `doDownload` flag is
computed but never read. -/
def getFile (isFtp : Bool) (fw : FileWorld) : Except PyErr GetFileOut :=
  if isFtp then
    match syncDecision fw.target.isSome fw.localMeta fw.remoteMeta with
    | .error e => .error e
    | .ok dd =>
      match fw.step with
      | .openFail => .ok ⟨false, dd, true, fw.target⟩
      | .transferOk c => .ok ⟨true, dd, true, some c⟩
      | .transferFail w => .ok ⟨false, dd, true, some w⟩
  else .ok ⟨false, true, false, fw.target⟩

/-- The hard-coded local destination root (line 106). -/
def outputRoot : String :=
  "/home/sdu/Development/nmme/pythonFtpTests/ncep_reanal/testData"

/-- Embedding of `os.path.join` with a relative second component. -/
def pathJoin (a b : String) : String := a ++ "/" ++ b

/-- Working directory of the FTP session relative to the base path
`pub/data/nccf/com/cdas2/prod`: `ups` counts `..` steps taken above the base,
`downs` is the stack of directories entered below it. -/
structure Loc where
  ups : Nat
  downs : List String
deriving DecidableEq, Repr

/-- Effect of `ftp.cwd("..")` (lines 181 and 195) on the session location. -/
def cwdUp (loc : Loc) : Loc :=
  match loc.downs with
  | [] => ⟨loc.ups + 1, []⟩
  | _ => ⟨loc.ups, loc.downs.dropLast⟩

/-- Oracles describing the external world seen by `main`: whether `cwd` into a
named entry succeeds from a given location, the `nlst` listing at a location
(`none` is an FTP error), whether a local path is an existing directory,
whether `mkdir` succeeds on a local path, and the `getFile` world for a remote
name fetched from a given location. -/
structure World where
  cwdOk : Loc → String → Bool
  nlst : Loc → Option (List String)
  isdirLocal : String → Bool
  mkdirOk : String → Bool
  fileWorld : Loc → String → FileWorld

/-- Diagnostic and session events emitted by `main`, in program order. -/
inductive Event where
  /-- `ftplib.FTP(ftpUrl)` succeeded (line 115). -/
  | connect
  /-- `ftp.login()` succeeded (line 122). -/
  | login
  /-- `ftp.cwd(ftpPath)` succeeded (line 130). -/
  | cwdBase
  /-- The note of line 168: files of `inDir` will be placed in `outDir`. -/
  | dirNote (inDir outDir : String)
  /-- The warning of line 173: unable to enter the FTP directory. -/
  | enterWarn (inDir : String)
  /-- The warning of line 180: unable to list the FTP directory. -/
  | listWarn (inDir : String)
  /-- `getFile` was invoked (line 193) on remote name `source` with local
  target path `target`. -/
  | fileFetch (source target : String)
  /-- `ftp.quit()` was called. -/
  | quit
deriving DecidableEq, Repr

/-- Which explicit `exit(...)` call fired. -/
inductive FatalKind where
  | rootMissing
  | connectFail
  | loginFail
  | cwdFail
  | listFail
deriving DecidableEq, Repr

/-- How the process run ends. -/
inductive Outcome where
  /-- `main` ran to completion. -/
  | completed
  /-- An explicit `exit(...)` with a diagnostic. -/
  | fatalExit (k : FatalKind)
  /-- An uncaught Python exception aborted the run. -/
  | crashed (e : PyErr)
deriving DecidableEq, Repr

/-- The inner loop of lines 184-193: each listed name is fetched with
`getFile`; its return value is ignored, but an uncaught exception from
`getFile` aborts the run. -/
def processFiles (w : World) (loc : Loc) (d : Date) (fullOutDir : String) :
    List String → List Event × Option PyErr
  | [] => ([], none)
  | f :: fs =>
    let tgt := pathJoin fullOutDir (outFileName d f)
    match getFile true (w.fileWorld loc f) with
    | .error e => ([.fileFetch f tgt], some e)
    | .ok _ =>
      let (evs, r) := processFiles w loc d fullOutDir fs
      (.fileFetch f tgt :: evs, r)

/-- The outer loop of lines 142-195.  A name that does not parse raises inside
the skip warning (replacement field 1, one argument).  A missing output
directory whose `mkdir` fails raises inside its warning (replacement field 4,
four arguments).  A failed `cwd` into the date directory prints a warning but
falls through without `continue`, so the subsequent `nlst` runs at the
unchanged location; a failed `nlst` prints a warning, steps to the parent and
continues. -/
def walkDirs (w : World) (loc : Loc) : List String → List Event × Option PyErr
  | [] => ([], none)
  | inDir :: rest =>
    match getDirDate inDir with
    | .error e => ([], some e)
    | .ok none => ([], some .indexError)
    | .ok (some d) =>
      let outDir := deriveOutputSubdirectory d
      let fullOutDir := pathJoin outputRoot outDir
      if w.isdirLocal fullOutDir || w.mkdirOk fullOutDir then
        let entered := w.cwdOk loc inDir
        let loc1 := if entered then ⟨loc.ups, loc.downs ++ [inDir]⟩ else loc
        let enterEvs := if entered then [] else [Event.enterWarn inDir]
        match w.nlst loc1 with
        | none =>
          let (evs, r) := walkDirs w (cwdUp loc1) rest
          (Event.dirNote inDir outDir :: enterEvs ++ Event.listWarn inDir :: evs, r)
        | some files =>
          let (fevs, ferr) := processFiles w loc1 d fullOutDir files
          match ferr with
          | some e => (Event.dirNote inDir outDir :: enterEvs ++ fevs, some e)
          | none =>
            let (evs, r) := walkDirs w (cwdUp loc1) rest
            (Event.dirNote inDir outDir :: enterEvs ++ fevs ++ evs, r)
      else ([], some .indexError)

/-- Start-up conditions of `main` (lines 106-134): the destination root
exists, the connection succeeds, the login succeeds, the `cwd` to the base
path succeeds. -/
structure SetupWorld where
  rootIsDir : Bool
  connectOk : Bool
  loginOk : Bool
  cwdBaseOk : Bool
deriving DecidableEq, Repr

/-- Embedding of `main` (lines 93-196).  The login-failure and base-cwd-failure
paths call `ftp.quit()` before exiting; the top-listing-failure path (lines
137-140) exits without calling `ftp.quit()`. -/
def mainRun (sw : SetupWorld) (w : World) : List Event × Outcome :=
  if sw.rootIsDir = false then ([], .fatalExit .rootMissing)
  else if sw.connectOk = false then ([], .fatalExit .connectFail)
  else if sw.loginOk = false then ([.connect, .quit], .fatalExit .loginFail)
  else if sw.cwdBaseOk = false then ([.connect, .login, .quit], .fatalExit .cwdFail)
  else
    match w.nlst ⟨0, []⟩ with
    | none => ([.connect, .login, .cwdBase], .fatalExit .listFail)
    | some dirs =>
      match walkDirs w ⟨0, []⟩ dirs with
      | (evs, some e) =>
        (Event.connect :: Event.login :: Event.cwdBase :: evs, .crashed e)
      | (evs, none) =>
        (Event.connect :: Event.login :: Event.cwdBase :: (evs ++ [Event.quit]),
         .completed)

/-- Start-up world where every step of lines 106-134 succeeds. -/
def swOk : SetupWorld := ⟨true, true, true, true⟩

/-- World for the skip-path evaluation of `getFile`: the target exists with
size 100 and ctime 10, the remote file has equal size 100 and older mtime 5,
and the transfer would succeed with fresh content. -/
def fwSkip : FileWorld :=
  ⟨some [1, 2, 3], some (100, 10), some (100, 5), .transferOk [9, 9]⟩

/-- World where the target exists with readable metadata but the remote
`SIZE`/`MDTM` queries fail. -/
def fwRemoteFail : FileWorld :=
  ⟨some [1], some (100, 10), none, .transferOk []⟩

/-- World where the skip decision is reached (sizes equal, remote older) and
the transfer then fails after writing `[7]`. -/
def fwFailAfterSkip : FileWorld :=
  ⟨some [1, 2, 3], some (100, 10), some (100, 5), .transferFail [7]⟩

/-- World for the non-matching top entry scenario: the base listing holds a
malformed name followed by a valid date directory. -/
def wBadName : World :=
  { cwdOk := fun _ _ => true
    nlst := fun l => if l = ⟨0, []⟩ then some ["badname", "cdas2.20230101"] else some []
    isdirLocal := fun _ => true
    mkdirOk := fun _ => true
    fileWorld := fun _ _ => ⟨none, none, none, .transferOk []⟩ }

/-- World for the mkdir-failure scenario: two valid date directories, the
output subdirectory is absent and cannot be created. -/
def wMkdirFail : World :=
  { cwdOk := fun _ _ => true
    nlst := fun l => if l = ⟨0, []⟩ then some ["cdas2.20230101", "cdas2.20230102"] else some []
    isdirLocal := fun _ => false
    mkdirOk := fun _ => false
    fileWorld := fun _ _ => ⟨none, none, none, .transferOk []⟩ }

/-- World for the failed-entry scenario: every `cwd` into a subdirectory
fails, so the session never leaves the base; the listing at the base returns
the two date directories themselves, and listings elsewhere fail. -/
def wEnterFail : World :=
  { cwdOk := fun _ _ => false
    nlst := fun l => if l = ⟨0, []⟩ then some ["cdas2.20230101", "cdas2.20230102"] else none
    isdirLocal := fun _ => true
    mkdirOk := fun _ => true
    fileWorld := fun _ _ => ⟨none, none, none, .transferOk []⟩ }

/-- World where the top-level listing fails. -/
def wListFail : World :=
  { cwdOk := fun _ _ => true
    nlst := fun _ => none
    isdirLocal := fun _ => true
    mkdirOk := fun _ => true
    fileWorld := fun _ _ => ⟨none, none, none, .transferOk []⟩ }

/-- World for the per-file metadata-failure scenario: one valid date directory
with two files; the remote metadata queries fail for the first file while its
local copy exists with readable metadata. -/
def wFileMetaFail : World :=
  { cwdOk := fun _ _ => true
    nlst := fun l => if l = ⟨0, []⟩ then some ["cdas2.20230101"] else some ["fileA", "fileB"]
    isdirLocal := fun _ => true
    mkdirOk := fun _ => true
    fileWorld := fun _ f =>
      if f = "fileA" then ⟨some [1], some (100, 10), none, .transferOk []⟩
      else ⟨none, none, none, .transferOk []⟩ }

/-- Distinct decimal digit values below 10 give distinct ASCII characters. -/
theorem digitChar_inj : ∀ a < 10, ∀ b < 10, digitChar a = digitChar b → a = b := by
  decide

/-- The character list of a four-digit zero-padded rendering. -/
theorem pad4_data (n : Nat) :
    (pad4 n).data = [digitChar (n / 1000 % 10), digitChar (n / 100 % 10),
      digitChar (n / 10 % 10), digitChar (n % 10)] := rfl

/-- The four-digit zero-padded rendering is injective on values up to 9999. -/
theorem pad4_inj {a b : Nat} (ha : a ≤ 9999) (hb : b ≤ 9999)
    (h : (pad4 a).data = (pad4 b).data) : a = b := by
  rw [pad4_data, pad4_data] at h
  simp only [List.cons.injEq, and_true] at h
  obtain ⟨e3, e2, e1, e0⟩ := h
  have d3 := digitChar_inj _ (Nat.mod_lt _ (by omega)) _ (Nat.mod_lt _ (by omega)) e3
  have d2 := digitChar_inj _ (Nat.mod_lt _ (by omega)) _ (Nat.mod_lt _ (by omega)) e2
  have d1 := digitChar_inj _ (Nat.mod_lt _ (by omega)) _ (Nat.mod_lt _ (by omega)) e1
  have d0 := digitChar_inj _ (Nat.mod_lt _ (by omega)) _ (Nat.mod_lt _ (by omega)) e0
  omega

/-- Claim C1: the spec says that for a current local copy (equal sizes, remote
modification time strictly older than local creation time) the decision is
skip and no transfer is performed.  The code computes the skip decision
(`doDownload = false`) but performs the transfer anyway: the returned state
shows the download block was entered and the target bytes were rewritten. -/
theorem C1_skip_decision_ignored :
    getFile true fwSkip =
      .ok { ret := true, doDownload := false, downloadAttempted := true,
            file := some [9, 9] } := by
  decide

/-- Claim C2: the spec says a remote metadata-retrieval failure is logged and
the download is forced, the run continuing.  In the code the warning itself
raises an uncaught IndexError (replacement field 1, one positional argument),
so `getFile` aborts; at walker level the run crashes before the second file of
the directory is ever fetched. -/
theorem C2_remote_metadata_failure_aborts :
    getFile true fwRemoteFail = .error .indexError
  ∧ mainRun swOk wFileMetaFail =
      ([.connect, .login, .cwdBase, .dirNote "cdas2.20230101" "2023jan",
        .fileFetch "fileA"
          "/home/sdu/Development/nmme/pythonFtpTests/ncep_reanal/testData/2023jan/sig.anl.20230101.ieee"],
       .crashed .indexError) := by
  decide

/-- Claim C3 (counterexample): `getDirDate` is not total.  The name
`cdas2.20231301` matches the pattern of prefix plus 8 digits, but month 13 is
rejected by `strptime`, which raises a ValueError instead of returning
`None`. -/
theorem C3_counterexample :
    getDirDate "cdas2.20231301" = .error .valueError := by decide

/-- Claim C3 (amended): `getDirDate` returns `None` for every string that does
not match the pattern exactly, returns the encoded date for matching names
whose 8 digits form a valid calendar date, and raises a ValueError for
matching names whose digits do not form a valid date. -/
theorem C3_getDirDate_characterization (s : String) :
    (cdas2Pattern s = false → getDirDate s = .ok none)
  ∧ (cdas2Pattern s = true → dateValid (extractDate s) = true →
      getDirDate s = .ok (some (extractDate s)))
  ∧ (cdas2Pattern s = true → dateValid (extractDate s) = false →
      getDirDate s = .error .valueError) := by
  refine ⟨fun h => ?_, fun h hv => ?_, fun h hv => ?_⟩
  · simp [getDirDate, h]
  · simp [getDirDate, h, hv]
  · simp [getDirDate, h, hv]

/-- Claim C3 witness: the characterization applied to a well-formed name. -/
theorem C3_witness :
    getDirDate "cdas2.20230101" = .ok (some (extractDate "cdas2.20230101")) :=
  (C3_getDirDate_characterization "cdas2.20230101").2.1 (by decide) (by decide)

/-- Claim C4: the spec says a non-matching top-level entry is logged and
skipped without aborting.  In the code the skip warning formats replacement
field 1 with one positional argument and raises an uncaught IndexError, so the
first malformed name aborts the whole run and the valid sibling directory is
never processed. -/
theorem C4_nonmatching_entry_aborts :
    mainRun swOk wBadName =
      ([.connect, .login, .cwdBase], .crashed .indexError) := by decide

/-- Claim C5: the `doDownload` truth table of the spec.  With an existing
local file of size 100 and creation time T2: equal remote size and strictly
older remote time gives skip; a different remote size forces download; a
remote time at or after T2 forces download; and a missing local file forces
download for every remote metadata value, available or not. -/
theorem C5_truth_table (T1 T2 : Int) (h : T1 < T2) :
    syncDecision true (some (100, T2)) (some (100, T1)) = .ok false
  ∧ syncDecision true (some (100, T2)) (some (101, T1)) = .ok true
  ∧ (∀ T : Int, T2 ≤ T → syncDecision true (some (100, T2)) (some (100, T)) = .ok true)
  ∧ (∀ lm rm : Option (Int × Int), syncDecision false lm rm = .ok true) := by
  refine ⟨?_, ?_, fun T hT => ?_, fun lm rm => rfl⟩
  · simp [syncDecision, h]
  · simp [syncDecision]
  · simp [syncDecision, not_lt.mpr hT]

/-- Claim C5 witness: the truth table evaluated at concrete times 5 and 10. -/
theorem C5_witness :
    syncDecision true (some (100, (10 : Int))) (some (100, (5 : Int))) = .ok false
  ∧ syncDecision true (some (100, (10 : Int))) (some (100, (12 : Int))) = .ok true
  ∧ syncDecision false none none = .ok true :=
  ⟨(C5_truth_table 5 10 (by decide)).1,
   (C5_truth_table 5 10 (by decide)).2.2.1 12 (by decide),
   (C5_truth_table 5 10 (by decide)).2.2.2 none none⟩

/-- Claim C6: the spec says a failed entry into a date directory skips that
directory entirely.  In the code the handler prints a skip warning but lacks a
continue statement, so the subsequent listing runs in the unchanged parent
directory and the sibling date-directory names themselves are passed to
`getFile` as if they were files of the failed directory. -/
theorem C6_enter_failure_fetches_siblings :
    mainRun swOk wEnterFail =
      ([.connect, .login, .cwdBase,
        .dirNote "cdas2.20230101" "2023jan",
        .enterWarn "cdas2.20230101",
        .fileFetch "cdas2.20230101"
          "/home/sdu/Development/nmme/pythonFtpTests/ncep_reanal/testData/2023jan/sig.anl.2023010102.ieee",
        .fileFetch "cdas2.20230102"
          "/home/sdu/Development/nmme/pythonFtpTests/ncep_reanal/testData/2023jan/sig.anl.2023010102.ieee",
        .dirNote "cdas2.20230102" "2023jan",
        .enterWarn "cdas2.20230102",
        .listWarn "cdas2.20230102",
        .quit],
       .completed) := by decide

/-- Claim C7 (counterexample): when the top-level listing fails after a
session is established, the process exits fatally without a quit event: the
session is not released on this exit path. -/
theorem C7_counterexample :
    (mainRun swOk wListFail).2 = .fatalExit .listFail
  ∧ Event.quit ∉ (mainRun swOk wListFail).1 := by decide

/-- Claim C7 (amended): after a session is established the code releases it on
the authentication-failure path, on the base-path-navigation-failure path and
on every completed run, but not on the top-level-listing-failure path. -/
theorem C7_session_release_paths (sw : SetupWorld) (w : World)
    (hr : sw.rootIsDir = true) (hc : sw.connectOk = true) :
    (sw.loginOk = false →
      mainRun sw w = ([.connect, .quit], .fatalExit .loginFail))
  ∧ (sw.loginOk = true → sw.cwdBaseOk = false →
      mainRun sw w = ([.connect, .login, .quit], .fatalExit .cwdFail))
  ∧ ((mainRun sw w).2 = .completed → Event.quit ∈ (mainRun sw w).1) := by
  refine ⟨fun hl => ?_, fun hl hcb => ?_, fun hdone => ?_⟩
  · simp [mainRun, hr, hc, hl]
  · simp [mainRun, hr, hc, hl, hcb]
  · by_cases hl : sw.loginOk = false
    · simp [mainRun, hr, hc, hl] at hdone
    · by_cases hcb : sw.cwdBaseOk = false
      · simp [mainRun, hr, hc, hl, hcb] at hdone
      · cases hn : w.nlst ⟨0, []⟩ with
        | none => simp [mainRun, hr, hc, hl, hcb, hn] at hdone
        | some dirs =>
          rcases hw : walkDirs w ⟨0, []⟩ dirs with ⟨evs, err⟩
          cases err with
          | some e => simp [mainRun, hr, hc, hl, hcb, hn, hw] at hdone
          | none => simp [mainRun, hr, hc, hl, hcb, hn, hw]

/-- Claim C7 witness: the amended statement applied to a run whose login
fails. -/
theorem C7_witness :
    mainRun ⟨true, true, false, true⟩ wListFail =
      ([.connect, .quit], .fatalExit .loginFail) :=
  (C7_session_release_paths ⟨true, true, false, true⟩ wListFail rfl rfl).1 rfl

/-- Claim C8: the spec says a failed creation of the local output directory
skips only that date directory and is never fatal.  In the code the warning
formats replacement field 4 with four positional arguments and raises an
uncaught IndexError, so the first such failure aborts the run and the second
date directory is never processed. -/
theorem C8_mkdir_failure_aborts :
    mainRun swOk wMkdirFail =
      ([.connect, .login, .cwdBase], .crashed .indexError) := by decide

/-- Claim C9: the output subdirectory name depends only on the month and the
year of the date, dates in the same month of different years map to distinct
strings, and January 2023 maps to the string 2023jan. -/
theorem C9_output_subdirectory (d1 d2 : Date)
    (h1 : d1.year ≤ 9999) (h2 : d2.year ≤ 9999) :
    (d1.year = d2.year → d1.month = d2.month →
      deriveOutputSubdirectory d1 = deriveOutputSubdirectory d2)
  ∧ (d1.month = d2.month → d1.year ≠ d2.year →
      deriveOutputSubdirectory d1 ≠ deriveOutputSubdirectory d2)
  ∧ deriveOutputSubdirectory ⟨2023, 1, 1⟩ = "2023jan" := by
  refine ⟨fun hy hm => ?_, fun hm hy hc => ?_, by decide⟩
  · simp [deriveOutputSubdirectory, hy, hm]
  · apply hy
    apply pad4_inj h1 h2
    have hc2 : (pad4 d1.year ++ monthAbbrevLower d1.month).data
             = (pad4 d2.year ++ monthAbbrevLower d2.month).data :=
      congrArg String.data hc
    rw [String.data_append, String.data_append, hm] at hc2
    exact (List.append_inj hc2 rfl).1

/-- Claim C9 witness: January 2023 and January 2022 give 2023jan and distinct
strings. -/
theorem C9_witness :
    deriveOutputSubdirectory ⟨2023, 1, 1⟩ = "2023jan"
  ∧ deriveOutputSubdirectory ⟨2023, 1, 1⟩ ≠ deriveOutputSubdirectory ⟨2022, 1, 5⟩ :=
  ⟨(C9_output_subdirectory ⟨2023, 1, 1⟩ ⟨2022, 1, 5⟩ (by decide) (by decide)).2.2,
   (C9_output_subdirectory ⟨2023, 1, 1⟩ ⟨2022, 1, 5⟩ (by decide) (by decide)).2.1
     rfl (by decide)⟩

/-- Claim C10: whenever a `getFile` call on a live FTP session runs to
completion, the download block was entered regardless of the computed skip
decision; on a successful transfer the target holds exactly the transferred
bytes, and on a failed transfer the target holds exactly the bytes written
before the failure, so the prior content is not preserved in either case. -/
theorem C10_unconditional_download (fw : FileWorld) (out : GetFileOut)
    (h : getFile true fw = .ok out) :
    out.downloadAttempted = true
  ∧ (∀ w, fw.step = .transferFail w → out.file = some w ∧ out.ret = false)
  ∧ (∀ c, fw.step = .transferOk c → out.file = some c ∧ out.ret = true) := by
  unfold getFile at h
  rw [if_pos rfl] at h
  cases hd : syncDecision fw.target.isSome fw.localMeta fw.remoteMeta with
  | error e => rw [hd] at h; simp at h
  | ok dd =>
    rw [hd] at h
    cases hs : fw.step with
    | openFail =>
      rw [hs] at h
      simp only [Except.ok.injEq] at h
      subst h
      exact ⟨rfl, fun w hw => by simp [hs] at hw, fun c hc => by simp [hs] at hc⟩
    | transferOk c =>
      rw [hs] at h
      simp only [Except.ok.injEq] at h
      subst h
      refine ⟨rfl, fun w hw => by simp at hw, fun c2 hc => ?_⟩
      injection hc with e
      subst e
      exact ⟨rfl, rfl⟩
    | transferFail w =>
      rw [hs] at h
      simp only [Except.ok.injEq] at h
      subst h
      refine ⟨rfl, fun w2 hw => ?_, fun c hc => by simp at hc⟩
      injection hw with e
      subst e
      exact ⟨rfl, rfl⟩

/-- Claim C10 witness: a run whose skip decision is false and whose transfer
fails after writing one byte leaves exactly that byte in the target. -/
theorem C10_witness :
    GetFileOut.downloadAttempted
      { ret := false, doDownload := false, downloadAttempted := true,
        file := some [7] } = true :=
  (C10_unconditional_download fwFailAfterSkip
    { ret := false, doDownload := false, downloadAttempted := true,
      file := some [7] } (by decide)).1
